import Mathlib

/-!
# SteamVR-VoidScene: frame submission loops, process exit codes, command line

Shallow embedding of `src/main.cpp`.

* Calls into OpenVR, Direct3D, the C++ standard library and Win32 are recorded
  in a chronological trace of `Call`s; what those calls answer is an input of
  the embedding (an event feed, the values read from `g_DoQuit`, the result of
  `VR_Init`, ...).
* `VRLoopNormal`, `EntryThreadEventLoop`, `VRLoopSplit`, `ParseCommandLine`,
  `LoadSettings`, `InitOpenVR` and `WinMain` are functions from those inputs
  to a trace and a result.  A loop whose inputs run out before it leaves its
  `while` has `returned = false`.
* The two threads of the Split mode are also embedded as a transition system
  (`step`) over program points, one move of one thread at a time; the atomic
  `g_DoQuit` is sequentially consistent, so interleaving is its semantics.
-/

namespace VoidScene

/-! ## Data model -/

/-- Event types `PollNextEvent` can deliver. The loops switch on
`vr::VREvent_Quit` only; every other type falls through the `switch`. -/
inductive EVREventType where
  | VREvent_Quit
  | VREvent_Other (eventType : Nat)
  deriving DecidableEq, Repr

/-- Eye argument of `IVRCompositor::Submit`. -/
inductive EVREye where
  | Eye_Left
  | Eye_Right
  deriving DecidableEq, Repr

/-- Result of `VR_Init`, as far as `WinMain` distinguishes it. -/
inductive EVRInitError where
  | VRInitError_None
  | VRInitError_Init_InitCanceledByUser
  | VRInitError_Other (code : Nat)
  deriving DecidableEq, Repr

/-- Error out-parameter of `IVRSettings`, as far as `LoadSettings`
distinguishes it. -/
inductive EVRSettingsError where
  | VRSettingsError_None
  | VRSettingsError_UnsetSettingHasNoDefault
  | VRSettingsError_Other (code : Nat)
  deriving DecidableEq, Repr

/-- Constant `k_AppKey`. -/
def k_AppKey : List Char := "elvissteinjr.void_scene".toList

/-- Constant `k_SettingsKeyBackgroundColor`. -/
def k_SettingsKeyBackgroundColor : List Char := "BackgroundColor".toList

/-- Constant `k_SettingsKeyUseDebugCommand`. -/
def k_SettingsKeyUseDebugCommand : List Char := "UseDebugCommand".toList

/-- Constant `k_LatencyTestingTogglePath`. -/
def k_LatencyTestingTogglePath : List Char :=
  "vrmonitor://debugcommands/latency_testing_toggle".toList

/-- One call the program makes into a library, with the arguments the program
chooses (and, for `PollNextEvent`, the answer it got). -/
inductive Call where
  | VR_Init
  | GetModuleFileNameW
  | AddApplicationManifest
  | IdentifyApplication
  | MessageBox (text : List Char)
  | SetString (section_ key value : List Char)
  | SetBool (section_ key : List Char) (value : Bool)
  | GetString (section_ key : List Char)
  | GetBool (section_ key : List Char)
  | CreateDeviceD3D
  | CreateTexture (color : Nat)
  | PollNextEvent (result : Option EVREventType)
  | AcknowledgeQuit_Exiting
  | Submit (eye : EVREye)
  | WaitGetPoses
  | ShellExecuteA (file : List Char)
  | sleep_for (seconds : Nat)
  | thread_start
  | thread_join
  | VR_Shutdown
  deriving DecidableEq, Repr

/-- Outcome of running a loop on a finite description of its inputs. -/
structure Run where
  trace : List Call
  returned : Bool
  deriving DecidableEq, Repr

/-- Outcome of the control thread: its trace, the value it leaves in
`g_DoQuit`, and whether it returned. -/
structure ThreadRun where
  trace : List Call
  g_DoQuit : Bool
  returned : Bool
  deriving DecidableEq, Repr

/-! ## The event loops (main.cpp 298-369) -/

/-- The drain `while (PollNextEvent(...)) { switch ... }` shared by
`VRLoopNormal` (305-316) and `EntryThreadEventLoop` (337-348), run on the
events pending in one drain. Every event costs one `PollNextEvent` call that
returns true; a Quit event is acknowledged and sets the quit flag; the `break`
leaves the `switch` only, so the drain goes on until `PollNextEvent` returns
false. Returns the calls made and the quit flag after the drain. -/
def pollEvents (quit : Bool) : List EVREventType → List Call × Bool
  | [] => ([Call.PollNextEvent none], quit)
  | EVREventType.VREvent_Quit :: es =>
    let r := pollEvents true es
    (Call.PollNextEvent (some EVREventType.VREvent_Quit)
      :: Call.AcknowledgeQuit_Exiting :: r.1, r.2)
  | EVREventType.VREvent_Other t :: es =>
    let r := pollEvents quit es
    (Call.PollNextEvent (some (EVREventType.VREvent_Other t)) :: r.1, r.2)

/-- Lines 318-321: `Submit(Eye_Left)`, `Submit(Eye_Right)`, `WaitGetPoses`. -/
def submitCycle : List Call :=
  [Call.Submit EVREye.Eye_Left, Call.Submit EVREye.Eye_Right, Call.WaitGetPoses]

/-- `while (!do_quit) { drain; submit; submit; wait }` of `VRLoopNormal`,
entered with the given value of the local `do_quit`; one drain of the feed is
consumed per iteration. -/
def VRLoopNormal.loop : Bool → List (List EVREventType) → Run
  | true, _ => ⟨[], true⟩
  | false, [] => ⟨[], false⟩
  | false, d :: feed =>
    let p := pollEvents false d
    let r := VRLoopNormal.loop p.2 feed
    ⟨p.1 ++ submitCycle ++ r.trace, r.returned⟩

/-- `VRLoopNormal` (298-323): `do_quit` starts false. -/
def VRLoopNormal (feed : List (List EVREventType)) : Run :=
  VRLoopNormal.loop false feed

/-- `while (!g_DoQuit) { drain; sleep 1s }` of `EntryThreadEventLoop` followed
by the second `ShellExecuteA` (334-353). The control thread is the only writer
of `g_DoQuit`, so the value it reads is the one it holds. -/
def EntryThreadEventLoop.loop : Bool → List (List EVREventType) → ThreadRun
  | true, _ => ⟨[Call.ShellExecuteA k_LatencyTestingTogglePath], true, true⟩
  | false, [] => ⟨[], false, false⟩
  | false, d :: feed =>
    let p := pollEvents false d
    let r := EntryThreadEventLoop.loop p.2 feed
    ⟨p.1 ++ [Call.sleep_for 1] ++ r.trace, r.g_DoQuit, r.returned⟩

/-- `EntryThreadEventLoop` (326-354), started with `g_DoQuit` holding `g`
(false at process start, line 22). -/
def EntryThreadEventLoop (g : Bool) (feed : List (List EVREventType)) : ThreadRun :=
  let r := EntryThreadEventLoop.loop g feed
  ⟨Call.ShellExecuteA k_LatencyTestingTogglePath :: r.trace, r.g_DoQuit, r.returned⟩

/-- `while (!g_DoQuit) { submit; submit; wait }` of `VRLoopSplit` (360-366);
`reads` are the values the successive loads of `g_DoQuit` at line 360 give. -/
def VRLoopSplit.loop : List Bool → Run
  | [] => ⟨[], false⟩
  | true :: _ => ⟨[], true⟩
  | false :: reads =>
    let r := VRLoopSplit.loop reads
    ⟨submitCycle ++ r.trace, r.returned⟩

/-- Outcome of `VRLoopSplit`: the calls of the calling (render) thread, the
run of the control thread it started, and whether `VRLoopSplit` returned. -/
structure SplitRun where
  trace : List Call
  control : ThreadRun
  returned : Bool
  deriving DecidableEq, Repr

/-- `VRLoopSplit` (356-369) seen from the calling thread: start the control
thread, loop on `g_DoQuit`, then `join`, which returns once the control
thread has returned. -/
def VRLoopSplit (reads : List Bool) (feed : List (List EVREventType)) : SplitRun :=
  let c := EntryThreadEventLoop false feed
  let r := VRLoopSplit.loop reads
  if r.returned then
    ⟨Call.thread_start :: r.trace ++ [Call.thread_join], c, c.returned⟩
  else
    ⟨Call.thread_start :: r.trace, c, false⟩

/-- Calls to the compositor (`Submit`, `WaitGetPoses`). -/
def isCompositorCall : Call → Bool
  | Call.Submit _ => true
  | Call.WaitGetPoses => true
  | _ => false

/-- Calls to `PollNextEvent` or `AcknowledgeQuit_Exiting`. -/
def isEventCall : Call → Bool
  | Call.PollNextEvent _ => true
  | Call.AcknowledgeQuit_Exiting => true
  | _ => false

/-- The compositor calls of a trace, in order. -/
def compositorCalls (trace : List Call) : List Call :=
  trace.filter isCompositorCall

/-- `n` full submit cycles. -/
def submitCycles (n : Nat) : List Call :=
  (List.replicate n submitCycle).flatten

/-- Trace of the drains `ds`, each followed by the calls `tail`. -/
def iterations (tail : List Call) (ds : List (List EVREventType)) : List Call :=
  (ds.map (fun d => (pollEvents false d).1 ++ tail)).flatten

/-! ## Command line (main.cpp 166-195) -/

/-- A `std::stringstream` read with `std::getline`: the characters not yet
extracted and the two state bits a string stream can get. -/
structure stringstream where
  buf : List Char
  eofbit : Bool
  failbit : Bool
  deriving DecidableEq, Repr

/-- Extraction phase of `std::getline(is, str, delim)`: characters are taken
until the delimiter (extracted, not stored) or the end of the buffer. Returns
the string read, the characters left, whether the end was hit, and whether any
character was extracted. -/
def getline.extract (delim : Char) : List Char → List Char × List Char × Bool × Bool
  | [] => ([], [], true, false)
  | c :: cs =>
    if c = delim then ([], cs, false, true)
    else
      let r := getline.extract delim cs
      (c :: r.1, r.2.1, r.2.2.1, true)

/-- `std::getline(ss, str, delim)`. The sentry fails on a stream that is not
good: `failbit` is set and `str` keeps its old value. Otherwise `str` is erased
and filled by the extraction; hitting the end sets `eofbit`, extracting nothing
sets `failbit`. -/
def getline (ss : stringstream) (str : List Char) (delim : Char) :
    stringstream × List Char :=
  if ss.eofbit || ss.failbit then
    ({ ss with failbit := true }, str)
  else
    let r := getline.extract delim ss.buf
    ({ buf := r.2.1, eofbit := r.2.2.1, failbit := !r.2.2.2 }, r.1)

/-- The `while (std::getline(ss, arg, ' '))` loop of `ParseCommandLine`, with a
bound on the number of iterations; `none` when the bound is reached. -/
def ParseCommandLine.loop : Nat → stringstream → List Char → Option (List Call)
  | 0, _, _ => none
  | fuel + 1, ss, arg =>
    let r1 := getline ss arg ' '
    if r1.1.failbit then some []
    else if r1.2 = "--set-background-color".toList then
      let r2 := getline r1.1 r1.2 ' '
      if r2.2.isEmpty then some []
      else
        (ParseCommandLine.loop fuel r2.1 r2.2).map
          (fun t => Call.SetString k_AppKey k_SettingsKeyBackgroundColor r2.2 :: t)
    else if r1.2 = "--set-use-debug-command".toList then
      let r2 := getline r1.1 r1.2 ' '
      if r2.2.isEmpty then some []
      else
        (ParseCommandLine.loop fuel r2.1 r2.2).map
          (fun t => Call.SetBool k_AppKey k_SettingsKeyUseDebugCommand
            (decide (r2.2 = "true".toList)) :: t)
    else ParseCommandLine.loop fuel r1.1 r1.2

/-- `ParseCommandLine(cmdline)`: the settings calls it makes. Every iteration
that goes on extracts a character or sets `eofbit`, so `length + 2` iterations
are enough (`ParseCommandLine_isSome`). -/
def ParseCommandLine (cmdline : List Char) : Option (List Call) :=
  ParseCommandLine.loop (cmdline.length + 2) ⟨cmdline, false, false⟩ []

/-- Bound on the `getline` calls that can still succeed on a stream: none on
a stream that is not good, else one per character left plus one. -/
def stringstream.measure (ss : stringstream) : Nat :=
  if ss.eofbit || ss.failbit then 0 else ss.buf.length + 1

/-- Calls that write a setting. -/
def isSettingsWrite : Call → Bool
  | Call.SetString _ _ _ => true
  | Call.SetBool _ _ _ => true
  | _ => false

/-! ## Start-up and exit (main.cpp 40-102, 122-164, 197-225) -/

/-- What the libraries answer during one run of `WinMain`. -/
structure Env where
  /-- Error `VR_Init` reports. -/
  vr_init_error : EVRInitError
  /-- Text of `VR_GetVRInitErrorAsEnglishDescription`. -/
  init_error_description : List Char
  /-- Number of `GetModuleFileNameW` calls that report a too small buffer. -/
  buffer_expansions : Nat
  /-- Whether `GetLastError() == ERROR_SUCCESS` after the buffer loop. -/
  last_error_success : Bool
  /-- The `lpCmdLine` argument. -/
  cmdline : List Char
  /-- Error of `GetString` for the background color. -/
  get_string_error : EVRSettingsError
  /-- Value `std::strtoul` reads from the color string. -/
  strtoul_value : Nat
  /-- Value and error of `GetBool` for the debug command setting. -/
  get_bool_value : Bool
  get_bool_error : EVRSettingsError
  /-- Results of `CreateDeviceD3D` and `CreateTexture`. -/
  create_device_ok : Bool
  create_texture_ok : Bool
  /-- Events delivered, one list per drain. -/
  feed : List (List EVREventType)
  /-- Values the render thread reads from `g_DoQuit` in Split mode. -/
  quit_reads : List Bool
  deriving Repr

/-- `InitOpenVR` (122-164): returns the error of `VR_Init` at once, else
registers the manifest when the module path was obtained. -/
def InitOpenVR (env : Env) : List Call × EVRInitError :=
  if env.vr_init_error ≠ EVRInitError.VRInitError_None then
    ([Call.VR_Init], env.vr_init_error)
  else
    ([Call.VR_Init] ++ List.replicate (env.buffer_expansions + 1) Call.GetModuleFileNameW
      ++ (if env.last_error_success then
            [Call.AddApplicationManifest, Call.IdentifyApplication]
          else []),
     EVRInitError.VRInitError_None)

/-- `LoadSettings` (197-225): calls made, `background_color` (a `uint32_t`)
and `use_debug_command`. -/
def LoadSettings (env : Env) : List Call × Nat × Bool :=
  let color_bgra : Nat :=
    if env.get_string_error = EVRSettingsError.VRSettingsError_None then
      (0xFF000000 ||| env.strtoul_value) % 2 ^ 32
    else 0xFF000000
  let t1 : List Call :=
    if env.get_string_error = EVRSettingsError.VRSettingsError_UnsetSettingHasNoDefault then
      [Call.SetString k_AppKey k_SettingsKeyBackgroundColor "#000000".toList]
    else []
  let t2 : List Call :=
    if env.get_bool_error = EVRSettingsError.VRSettingsError_UnsetSettingHasNoDefault then
      [Call.SetBool k_AppKey k_SettingsKeyUseDebugCommand false]
    else []
  ([Call.GetString k_AppKey k_SettingsKeyBackgroundColor] ++ t1
      ++ [Call.GetBool k_AppKey k_SettingsKeyUseDebugCommand] ++ t2,
   color_bgra, env.get_bool_value)

/-- Outcome of `WinMain`: calls of the main thread, calls of the control
thread (Split mode), and the value returned, `none` while the process is still
in a loop. -/
structure Exit where
  trace : List Call
  control : List Call
  exit_code : Option Int
  deriving DecidableEq, Repr

/-- `WinMain` (40-102). -/
def WinMain (env : Env) : Exit :=
  let i := InitOpenVR env
  if i.2 ≠ EVRInitError.VRInitError_None then
    if i.2 = EVRInitError.VRInitError_Init_InitCanceledByUser then
      ⟨i.1, [], some 0⟩
    else
      ⟨i.1 ++ [Call.MessageBox
        ("Failed to initialize OpenVR: ".toList ++ env.init_error_description)], [], some (-1)⟩
  else
    match ParseCommandLine env.cmdline with
    | none => ⟨i.1, [], none⟩
    | some p =>
      let l := LoadSettings env
      let t0 := i.1 ++ p ++ l.1 ++ [Call.CreateDeviceD3D]
      if !env.create_device_ok then
        ⟨t0 ++ [Call.MessageBox "Failed to initialize Direct3D.".toList], [], some (-2)⟩
      else
        let t1 := t0 ++ [Call.CreateTexture l.2.1]
        if !env.create_texture_ok then
          ⟨t1 ++ [Call.MessageBox "Failed to create eye texture.".toList], [], some (-3)⟩
        else if l.2.2 then
          let r := VRLoopSplit env.quit_reads env.feed
          if r.returned then ⟨t1 ++ r.trace ++ [Call.VR_Shutdown], r.control.trace, some 0⟩
          else ⟨t1 ++ r.trace, r.control.trace, none⟩
        else
          let r := VRLoopNormal env.feed
          if r.returned then ⟨t1 ++ r.trace ++ [Call.VR_Shutdown], [], some 0⟩
          else ⟨t1 ++ r.trace, [], none⟩

/-! ## The loops as a transition system -/

/-- Program points of the thread that runs `WinMain`, from line 89 on. -/
inductive MainPoint where
  /-- Line 302, `while (!do_quit)`. -/
  | normal_while
  /-- Line 305, `PollNextEvent`. -/
  | normal_poll
  /-- Line 311, `AcknowledgeQuit_Exiting`. -/
  | normal_ack
  /-- Line 312, `do_quit = true`. -/
  | normal_set
  /-- Lines 318, 319, 321. -/
  | normal_submit_left
  | normal_submit_right
  | normal_wait
  /-- Line 358, the `std::thread` constructor. -/
  | split_start
  /-- Line 360, `while (!g_DoQuit)`. -/
  | split_while
  /-- Lines 362, 363, 365. -/
  | split_submit_left
  | split_submit_right
  | split_wait
  /-- Line 368, `loop_thread.join()`. -/
  | split_join
  /-- Line 99, `VR_Shutdown`. -/
  | shutdown
  /-- Line 101, `return 0`. -/
  | exited
  deriving DecidableEq, Repr

/-- Program points of the thread that runs `EntryThreadEventLoop`. -/
inductive ControlPoint where
  | not_started
  /-- Line 332, first `ShellExecuteA`. -/
  | toggle_on
  /-- Line 334, `while (!g_DoQuit)`. -/
  | loop_while
  /-- Line 337, `PollNextEvent`. -/
  | poll
  /-- Line 343, `AcknowledgeQuit_Exiting`. -/
  | ack
  /-- Line 344, `g_DoQuit = true`. -/
  | set
  /-- Line 350, `sleep_for`. -/
  | sleep
  /-- Line 353, second `ShellExecuteA`. -/
  | toggle_off
  | finished
  deriving DecidableEq, Repr

/-- State of the process while it is in a loop: the global `g_DoQuit`, the
local `do_quit` of `VRLoopNormal`, where both threads stand, and the calls
made so far by either thread, oldest first. -/
structure State where
  g_DoQuit : Bool
  do_quit : Bool
  main : MainPoint
  control : ControlPoint
  trace : List Call
  deriving DecidableEq, Repr

/-- One move: which thread runs its next statement, and what `PollNextEvent`
answers should that statement be the poll. -/
inductive Move where
  | main (polled : Option EVREventType)
  | control (polled : Option EVREventType)
  deriving DecidableEq, Repr

/-- Where the drain goes after `PollNextEvent` answered. -/
def afterPoll {α : Type} (again ack done : α) : Option EVREventType → α
  | none => done
  | some EVREventType.VREvent_Quit => ack
  | some (EVREventType.VREvent_Other _) => again

/-- Next statement of the main thread; `none` when it cannot move (blocked in
`join`, or exited). `WaitGetPoses` is taken to return. -/
def stepMain (s : State) (polled : Option EVREventType) : Option State :=
  match s.main with
  | MainPoint.normal_while =>
    some { s with main := if s.do_quit then MainPoint.shutdown else MainPoint.normal_poll }
  | MainPoint.normal_poll =>
    some { s with
      trace := s.trace ++ [Call.PollNextEvent polled]
      main := afterPoll MainPoint.normal_poll MainPoint.normal_ack
        MainPoint.normal_submit_left polled }
  | MainPoint.normal_ack =>
    some { s with trace := s.trace ++ [Call.AcknowledgeQuit_Exiting]
                  main := MainPoint.normal_set }
  | MainPoint.normal_set =>
    some { s with do_quit := true, main := MainPoint.normal_poll }
  | MainPoint.normal_submit_left =>
    some { s with trace := s.trace ++ [Call.Submit EVREye.Eye_Left]
                  main := MainPoint.normal_submit_right }
  | MainPoint.normal_submit_right =>
    some { s with trace := s.trace ++ [Call.Submit EVREye.Eye_Right]
                  main := MainPoint.normal_wait }
  | MainPoint.normal_wait =>
    some { s with trace := s.trace ++ [Call.WaitGetPoses], main := MainPoint.normal_while }
  | MainPoint.split_start =>
    some { s with trace := s.trace ++ [Call.thread_start]
                  control := ControlPoint.toggle_on, main := MainPoint.split_while }
  | MainPoint.split_while =>
    some { s with
      main := if s.g_DoQuit then MainPoint.split_join else MainPoint.split_submit_left }
  | MainPoint.split_submit_left =>
    some { s with trace := s.trace ++ [Call.Submit EVREye.Eye_Left]
                  main := MainPoint.split_submit_right }
  | MainPoint.split_submit_right =>
    some { s with trace := s.trace ++ [Call.Submit EVREye.Eye_Right]
                  main := MainPoint.split_wait }
  | MainPoint.split_wait =>
    some { s with trace := s.trace ++ [Call.WaitGetPoses], main := MainPoint.split_while }
  | MainPoint.split_join =>
    if s.control = ControlPoint.finished then
      some { s with trace := s.trace ++ [Call.thread_join], main := MainPoint.shutdown }
    else none
  | MainPoint.shutdown =>
    some { s with trace := s.trace ++ [Call.VR_Shutdown], main := MainPoint.exited }
  | MainPoint.exited => none

/-- Next statement of the control thread; `none` when it is not running. -/
def stepControl (s : State) (polled : Option EVREventType) : Option State :=
  match s.control with
  | ControlPoint.not_started => none
  | ControlPoint.toggle_on =>
    some { s with trace := s.trace ++ [Call.ShellExecuteA k_LatencyTestingTogglePath]
                  control := ControlPoint.loop_while }
  | ControlPoint.loop_while =>
    some { s with
      control := if s.g_DoQuit then ControlPoint.toggle_off else ControlPoint.poll }
  | ControlPoint.poll =>
    some { s with
      trace := s.trace ++ [Call.PollNextEvent polled]
      control := afterPoll ControlPoint.poll ControlPoint.ack ControlPoint.sleep polled }
  | ControlPoint.ack =>
    some { s with trace := s.trace ++ [Call.AcknowledgeQuit_Exiting]
                  control := ControlPoint.set }
  | ControlPoint.set =>
    some { s with g_DoQuit := true, control := ControlPoint.poll }
  | ControlPoint.sleep =>
    some { s with trace := s.trace ++ [Call.sleep_for 1], control := ControlPoint.loop_while }
  | ControlPoint.toggle_off =>
    some { s with trace := s.trace ++ [Call.ShellExecuteA k_LatencyTestingTogglePath]
                  control := ControlPoint.finished }
  | ControlPoint.finished => none

/-- One move of the process. -/
def step (s : State) : Move → Option State
  | Move.main polled => stepMain s polled
  | Move.control polled => stepControl s polled

/-- State after a schedule of moves; `none` if some move was not possible. -/
def run (s : State) : List Move → Option State
  | [] => some s
  | m :: ms =>
    match step s m with
    | none => none
    | some s1 => run s1 ms

/-- States the process goes through under a schedule, the first one included;
the schedule is cut at the first move that is not possible. -/
def states (s : State) : List Move → List State
  | [] => [s]
  | m :: ms =>
    match step s m with
    | none => [s]
    | some s1 => s :: states s1 ms

/-- State when the loop is entered at line 89: `g_DoQuit` as initialised at
line 22, the loop chosen by `use_debug_command`. -/
def init (use_debug_command : Bool) : State :=
  { g_DoQuit := false
    do_quit := false
    main := if use_debug_command then MainPoint.split_start else MainPoint.normal_while
    control := ControlPoint.not_started
    trace := [] }

/-- Number of calls of the debug toggle command in a trace. -/
def toggleCount (trace : List Call) : Nat :=
  trace.count (Call.ShellExecuteA k_LatencyTestingTogglePath)

/-- Toggle calls the control thread has made when it stands at a point. -/
def ControlPoint.toggles : ControlPoint → Nat
  | ControlPoint.not_started => 0
  | ControlPoint.toggle_on => 0
  | ControlPoint.finished => 2
  | _ => 1

/-- Points of the main thread inside `VRLoopSplit`. -/
def MainPoint.inSplit : MainPoint → Bool
  | MainPoint.split_start => true
  | MainPoint.split_while => true
  | MainPoint.split_submit_left => true
  | MainPoint.split_submit_right => true
  | MainPoint.split_wait => true
  | MainPoint.split_join => true
  | _ => false

/-- Points of the main thread after the loop it ran has returned. -/
def MainPoint.afterLoop : MainPoint → Bool
  | MainPoint.shutdown => true
  | MainPoint.exited => true
  | _ => false

/-- Every `thread_join` and `VR_Shutdown` of the trace comes after two toggle
calls. -/
def joinedAfterToggles (trace : List Call) : Prop :=
  ∀ pre c post, trace = pre ++ c :: post →
    c = Call.thread_join ∨ c = Call.VR_Shutdown → toggleCount pre = 2

/-- Invariant of the Split mode. -/
structure SplitInv (s : State) : Prop where
  points : s.main.inSplit = true ∨ s.main.afterLoop = true
  start : s.main = MainPoint.split_start → s.control = ControlPoint.not_started
  toggles : toggleCount s.trace = s.control.toggles
  finished : s.main.afterLoop = true → s.control = ControlPoint.finished
  joined : joinedAfterToggles s.trace

/-- A full run of the Split mode: the control thread is started, toggles, polls
a Quit event, acknowledges, sets `g_DoQuit`, ends its drain, sleeps, leaves
its loop and toggles again; the main thread then leaves its loop, joins and
shuts the runtime down. -/
def splitSchedule : List Move :=
  [Move.main none, Move.control none, Move.control none,
   Move.control (some EVREventType.VREvent_Quit), Move.control none, Move.control none,
   Move.control none, Move.control none, Move.control none, Move.control none,
   Move.main none, Move.main none, Move.main none]

/-- State the process is in after `splitSchedule`. -/
def splitFinal : State :=
  { g_DoQuit := true
    do_quit := false
    main := MainPoint.exited
    control := ControlPoint.finished
    trace :=
      [Call.thread_start, Call.ShellExecuteA k_LatencyTestingTogglePath,
       Call.PollNextEvent (some EVREventType.VREvent_Quit), Call.AcknowledgeQuit_Exiting,
       Call.PollNextEvent none, Call.sleep_for 1,
       Call.ShellExecuteA k_LatencyTestingTogglePath, Call.thread_join, Call.VR_Shutdown] }

/-- A run in which every start-up step succeeds, Normal mode is chosen and a
Quit event is pending at the second drain. -/
def sampleEnv : Env :=
  { vr_init_error := EVRInitError.VRInitError_None
    init_error_description := []
    buffer_expansions := 0
    last_error_success := true
    cmdline := []
    get_string_error := EVRSettingsError.VRSettingsError_None
    strtoul_value := 0x202020
    get_bool_value := false
    get_bool_error := EVRSettingsError.VRSettingsError_None
    create_device_ok := true
    create_texture_ok := true
    feed := [[], [EVREventType.VREvent_Quit]]
    quit_reads := [] }

/-- Moves of one thread through the drain of the events `d`: a poll per event,
two more statements after a Quit event, and the poll that finds nothing. -/
def pollMoves (thread : Option EVREventType → Move) : List EVREventType → List Move
  | [] => [thread none]
  | EVREventType.VREvent_Quit :: es =>
    thread (some EVREventType.VREvent_Quit) :: thread none :: thread none
      :: pollMoves thread es
  | EVREventType.VREvent_Other t :: es =>
    thread (some (EVREventType.VREvent_Other t)) :: pollMoves thread es

/-- Moves of the main thread through `VRLoopNormal` on a feed, from the loop
test on. -/
def normalMoves : Bool → List (List EVREventType) → List Move
  | true, _ => [Move.main none]
  | false, [] => []
  | false, d :: feed =>
    Move.main none :: (pollMoves Move.main d
      ++ (Move.main none :: Move.main none :: Move.main none
        :: normalMoves (pollEvents false d).2 feed))

/-- Moves of the control thread through its loop on a feed, from the loop test
on, and through the second toggle. -/
def controlMoves : Bool → List (List EVREventType) → List Move
  | true, _ => [Move.control none, Move.control none]
  | false, [] => []
  | false, d :: feed =>
    Move.control none :: (pollMoves Move.control d
      ++ (Move.control none :: controlMoves (pollEvents false d).2 feed))

/-! ## Lemmas on the drain and the loops -/

theorem pollEvents_trace_quit (q : Bool) (d : List EVREventType) :
    (pollEvents q d).1 = (pollEvents false d).1 := by
  induction d generalizing q with
  | nil => rfl
  | cons e es ih =>
    cases e with
    | VREvent_Quit => simp only [pollEvents]
    | VREvent_Other t => simp only [pollEvents]; rw [ih q]

theorem pollEvents_flag_of_not_mem (q : Bool) (d : List EVREventType)
    (h : EVREventType.VREvent_Quit ∉ d) : (pollEvents q d).2 = q := by
  induction d generalizing q with
  | nil => rfl
  | cons e es ih =>
    cases e with
    | VREvent_Quit => simp at h
    | VREvent_Other t =>
      simp only [pollEvents]
      exact ih q (fun hm => h (List.mem_cons_of_mem _ hm))

theorem pollEvents_flag_true (d : List EVREventType) : (pollEvents true d).2 = true := by
  induction d with
  | nil => rfl
  | cons e es ih =>
    cases e with
    | VREvent_Quit => simpa only [pollEvents] using ih
    | VREvent_Other t => simpa only [pollEvents] using ih

theorem pollEvents_flag_of_mem (q : Bool) (d : List EVREventType)
    (h : EVREventType.VREvent_Quit ∈ d) : (pollEvents q d).2 = true := by
  induction d generalizing q with
  | nil => simp at h
  | cons e es ih =>
    cases e with
    | VREvent_Quit => simp only [pollEvents]; exact pollEvents_flag_true es
    | VREvent_Other t =>
      simp only [pollEvents]
      apply ih
      simpa using h

theorem pollEvents_count_ack (q : Bool) (d : List EVREventType) :
    (pollEvents q d).1.count Call.AcknowledgeQuit_Exiting
      = d.count EVREventType.VREvent_Quit := by
  induction d generalizing q with
  | nil => simp [pollEvents]
  | cons e es ih =>
    cases e with
    | VREvent_Quit => simp [pollEvents, ih true]
    | VREvent_Other t => simp [pollEvents, ih q]

theorem pollEvents_compositorCalls (q : Bool) (d : List EVREventType) :
    compositorCalls (pollEvents q d).1 = [] := by
  induction d generalizing q with
  | nil => simp [pollEvents, compositorCalls, isCompositorCall]
  | cons e es ih =>
    cases e with
    | VREvent_Quit =>
      have := ih true
      simp_all [pollEvents, compositorCalls, isCompositorCall]
    | VREvent_Other t =>
      have := ih q
      simp_all [pollEvents, compositorCalls, isCompositorCall]

theorem iterations_append (tail : List Call) (xs ys : List (List EVREventType)) :
    iterations tail (xs ++ ys) = iterations tail xs ++ iterations tail ys := by
  simp [iterations]

theorem iterations_cons (tail : List Call) (d : List EVREventType)
    (ds : List (List EVREventType)) :
    iterations tail (d :: ds) = (pollEvents false d).1 ++ tail ++ iterations tail ds := by
  simp [iterations]

theorem compositorCalls_append (xs ys : List Call) :
    compositorCalls (xs ++ ys) = compositorCalls xs ++ compositorCalls ys := by
  simp [compositorCalls]

theorem compositorCalls_submitCycle : compositorCalls submitCycle = submitCycle := by
  decide

theorem compositorCalls_iterations (ds : List (List EVREventType)) :
    compositorCalls (iterations submitCycle ds) = submitCycles ds.length := by
  induction ds with
  | nil => rfl
  | cons d ds ih =>
    rw [iterations_cons, compositorCalls_append, compositorCalls_append, ih,
      pollEvents_compositorCalls, compositorCalls_submitCycle]
    simp [submitCycles, List.replicate_succ]

theorem count_ack_submitCycle : submitCycle.count Call.AcknowledgeQuit_Exiting = 0 := by
  decide

theorem count_ack_iterations_of_not_mem (tail : List Call) (ds : List (List EVREventType))
    (ht : tail.count Call.AcknowledgeQuit_Exiting = 0)
    (h : ∀ d ∈ ds, EVREventType.VREvent_Quit ∉ d) :
    (iterations tail ds).count Call.AcknowledgeQuit_Exiting = 0 := by
  induction ds with
  | nil => rfl
  | cons d ds ih =>
    rw [iterations_cons, List.count_append, List.count_append, pollEvents_count_ack, ht,
      ih (fun x hx => h x (List.mem_cons_of_mem _ hx))]
    simpa using List.count_eq_zero_of_not_mem (h d (List.mem_cons_self _ _))

/-- The Normal loop on a feed whose first Quit lies in drain `d`: one
iteration per drain up to and including `d`, then it returns. -/
theorem VRLoopNormal_loop_eq (pre : List (List EVREventType)) (d : List EVREventType)
    (rest : List (List EVREventType))
    (hpre : ∀ x ∈ pre, EVREventType.VREvent_Quit ∉ x)
    (hd : EVREventType.VREvent_Quit ∈ d) :
    VRLoopNormal.loop false (pre ++ d :: rest)
      = ⟨iterations submitCycle (pre ++ [d]), true⟩ := by
  induction pre with
  | nil =>
    simp only [List.nil_append, VRLoopNormal.loop, pollEvents_flag_of_mem false d hd]
    simp [iterations]
  | cons x pre ih =>
    have hx : (pollEvents false x).2 = false :=
      pollEvents_flag_of_not_mem false x (hpre x (List.mem_cons_self _ _))
    have ih2 := ih (fun y hy => hpre y (List.mem_cons_of_mem _ hy))
    show VRLoopNormal.loop false (x :: (pre ++ d :: rest)) = _
    rw [VRLoopNormal.loop]
    simp only [hx, ih2, List.cons_append, iterations_cons]

/-- The control loop on a feed whose first Quit lies in drain `d`. -/
theorem EntryThreadEventLoop_loop_eq (pre : List (List EVREventType)) (d : List EVREventType)
    (rest : List (List EVREventType))
    (hpre : ∀ x ∈ pre, EVREventType.VREvent_Quit ∉ x)
    (hd : EVREventType.VREvent_Quit ∈ d) :
    EntryThreadEventLoop.loop false (pre ++ d :: rest)
      = ⟨iterations [Call.sleep_for 1] (pre ++ [d])
          ++ [Call.ShellExecuteA k_LatencyTestingTogglePath], true, true⟩ := by
  induction pre with
  | nil =>
    simp only [List.nil_append, EntryThreadEventLoop.loop, pollEvents_flag_of_mem false d hd]
    simp [iterations]
  | cons x pre ih =>
    have hx : (pollEvents false x).2 = false :=
      pollEvents_flag_of_not_mem false x (hpre x (List.mem_cons_self _ _))
    have ih2 := ih (fun y hy => hpre y (List.mem_cons_of_mem _ hy))
    show EntryThreadEventLoop.loop false (x :: (pre ++ d :: rest)) = _
    rw [EntryThreadEventLoop.loop]
    simp only [hx, ih2, List.cons_append, iterations_cons, List.append_assoc]

theorem VRLoopSplit_loop_eq (m : Nat) (rest : List Bool) :
    VRLoopSplit.loop (List.replicate m false ++ true :: rest) = ⟨submitCycles m, true⟩ := by
  induction m with
  | zero => rfl
  | succ m ih =>
    show VRLoopSplit.loop (false :: (List.replicate m false ++ true :: rest)) = _
    rw [VRLoopSplit.loop]
    simp only [ih]
    simp [submitCycles, List.replicate_succ]

theorem filter_isEventCall_submitCycles (m : Nat) :
    (submitCycles m).filter isEventCall = [] := by
  induction m with
  | zero => rfl
  | succ m ih =>
    have h : submitCycles (m + 1) = submitCycle ++ submitCycles m := by
      simp [submitCycles, List.replicate_succ]
    rw [h, List.filter_append, ih]
    decide

theorem filter_isEventCall_VRLoopSplit_loop (reads : List Bool) :
    (VRLoopSplit.loop reads).trace.filter isEventCall = [] := by
  induction reads with
  | nil => rfl
  | cons b reads ih =>
    cases b with
    | true => rfl
    | false =>
      rw [VRLoopSplit.loop]
      simp only [List.filter_append, ih]
      decide

/-! ## The calls of a drain and of the iterations, written out -/

/-- The calls of a drain, event by event: a poll that returns the event,
followed at once by the acknowledge call when the event is Quit; after the
last event the poll that returns nothing. -/
theorem pollEvents_calls (q : Bool) (d : List EVREventType) :
    (pollEvents q d).1
      = (d.map (fun e => if e = EVREventType.VREvent_Quit then
          [Call.PollNextEvent (some e), Call.AcknowledgeQuit_Exiting]
        else [Call.PollNextEvent (some e)])).flatten
        ++ [Call.PollNextEvent none] := by
  induction d generalizing q with
  | nil => rfl
  | cons e es ih =>
    cases e with
    | VREvent_Quit => simp [pollEvents, ih true]
    | VREvent_Other t => simp [pollEvents, ih q]

theorem drain_calls_of_not_mem (x : List EVREventType)
    (h : EVREventType.VREvent_Quit ∉ x) :
    (x.map (fun e => if e = EVREventType.VREvent_Quit then
          [Call.PollNextEvent (some e), Call.AcknowledgeQuit_Exiting]
        else [Call.PollNextEvent (some e)])).flatten
      = x.map (fun e => Call.PollNextEvent (some e)) := by
  induction x with
  | nil => rfl
  | cons e es ih =>
    have he : e ≠ EVREventType.VREvent_Quit := fun hq => h (by simp [hq])
    have hes : EVREventType.VREvent_Quit ∉ es := fun hm => h (List.mem_cons_of_mem _ hm)
    simp [he, ih hes]

theorem drain_calls_split (d1 d2 : List EVREventType)
    (h : EVREventType.VREvent_Quit ∉ d1) :
    ((d1 ++ EVREventType.VREvent_Quit :: d2).map (fun e => if e = EVREventType.VREvent_Quit then
          [Call.PollNextEvent (some e), Call.AcknowledgeQuit_Exiting]
        else [Call.PollNextEvent (some e)])).flatten
      = d1.map (fun e => Call.PollNextEvent (some e))
        ++ Call.PollNextEvent (some EVREventType.VREvent_Quit)
          :: Call.AcknowledgeQuit_Exiting
          :: (d2.map (fun e => if e = EVREventType.VREvent_Quit then
          [Call.PollNextEvent (some e), Call.AcknowledgeQuit_Exiting]
        else [Call.PollNextEvent (some e)])).flatten := by
  rw [List.map_append, List.flatten_append, drain_calls_of_not_mem d1 h]
  simp

theorem iterations_calls (tail : List Call) (ds : List (List EVREventType)) :
    iterations tail ds
      = (ds.map (fun x =>
          (x.map (fun e => if e = EVREventType.VREvent_Quit then
          [Call.PollNextEvent (some e), Call.AcknowledgeQuit_Exiting]
        else [Call.PollNextEvent (some e)])).flatten
            ++ Call.PollNextEvent none :: tail)).flatten := by
  induction ds with
  | nil => rfl
  | cons d ds ih =>
    rw [iterations_cons, ih, pollEvents_calls]
    simp

theorem iterations_calls_quiet (tail : List Call) (pre : List (List EVREventType))
    (hpre : ∀ x ∈ pre, EVREventType.VREvent_Quit ∉ x) :
    iterations tail pre
      = (pre.map (fun x =>
          x.map (fun e => Call.PollNextEvent (some e)) ++ Call.PollNextEvent none :: tail)).flatten := by
  induction pre with
  | nil => rfl
  | cons d ds ih =>
    rw [iterations_cons, ih (fun x hx => hpre x (List.mem_cons_of_mem _ hx)), pollEvents_calls,
      drain_calls_of_not_mem d (hpre d (List.mem_cons_self _ _))]
    simp

theorem compositorCalls_iterations_cycles (ds : List (List EVREventType)) :
    compositorCalls (iterations submitCycle ds)
      = (List.replicate ds.length [Call.Submit EVREye.Eye_Left, Call.Submit EVREye.Eye_Right, Call.WaitGetPoses]).flatten :=
  compositorCalls_iterations ds

/-! ## The Normal loop -/

/-- C1, as stated, fails: the number of submit cycles is not the position of
the Quit event among the polled events plus one. With a non-Quit event and the
Quit event pending in the same drain, Quit is at position 1 and the loop makes
one submit cycle, not two. -/
theorem VRLoopNormal_cycles_not_event_position :
    ¬ ∀ (feed : List (List EVREventType)) (k : Nat),
        feed.flatten.count EVREventType.VREvent_Quit = 1 →
        feed.flatten.indexOf EVREventType.VREvent_Quit = k →
        compositorCalls (VRLoopNormal feed).trace
          = (List.replicate (k + 1) [Call.Submit EVREye.Eye_Left, Call.Submit EVREye.Eye_Right, Call.WaitGetPoses]).flatten := by
  intro h
  have h1 := h [[EVREventType.VREvent_Other 0, EVREventType.VREvent_Quit]] 1
    (by decide) (by decide)
  revert h1
  decide

/-- C1, amended: on a feed of drains that holds exactly one Quit event, lying
in the drain at index `k = pre.length` (one drain per iteration), the Normal
loop returns; its trace is `k + 1` iterations, each the polls of the drain
(the acknowledge call right after the poll of Quit), the poll that finds
nothing, `Submit` left, `Submit` right, `WaitGetPoses`; its compositor calls
are exactly `k + 1` times `Submit` left, `Submit` right, `WaitGetPoses`; and
`AcknowledgeQuit_Exiting` is called exactly once. -/
theorem VRLoopNormal_cycles_of_quit_drain (pre : List (List EVREventType))
    (d : List EVREventType) (rest : List (List EVREventType))
    (hone : (pre ++ d :: rest).flatten.count EVREventType.VREvent_Quit = 1)
    (hd : EVREventType.VREvent_Quit ∈ d) :
    (VRLoopNormal (pre ++ d :: rest)).returned = true
    ∧ (VRLoopNormal (pre ++ d :: rest)).trace
        = ((pre ++ [d]).map (fun x =>
            (x.map (fun e => if e = EVREventType.VREvent_Quit then
          [Call.PollNextEvent (some e), Call.AcknowledgeQuit_Exiting]
        else [Call.PollNextEvent (some e)])).flatten
              ++ [Call.PollNextEvent none, Call.Submit EVREye.Eye_Left, Call.Submit EVREye.Eye_Right,
          Call.WaitGetPoses])).flatten
    ∧ compositorCalls (VRLoopNormal (pre ++ d :: rest)).trace
        = (List.replicate (pre.length + 1) [Call.Submit EVREye.Eye_Left, Call.Submit EVREye.Eye_Right, Call.WaitGetPoses]).flatten
    ∧ (VRLoopNormal (pre ++ d :: rest)).trace.count Call.AcknowledgeQuit_Exiting = 1 := by
  have hdpos : 0 < d.count EVREventType.VREvent_Quit := List.count_pos_iff.mpr hd
  simp only [List.flatten_append, List.flatten_cons, List.count_append] at hone
  have hpre0 : pre.flatten.count EVREventType.VREvent_Quit = 0 := by omega
  have hd1 : d.count EVREventType.VREvent_Quit = 1 := by omega
  have hpre : ∀ x ∈ pre, EVREventType.VREvent_Quit ∉ x := by
    intro x hx hq
    have : EVREventType.VREvent_Quit ∈ pre.flatten := List.mem_flatten.mpr ⟨x, hx, hq⟩
    exact absurd (List.count_pos_iff.mpr this) (by omega)
  have heq := VRLoopNormal_loop_eq pre d rest hpre hd
  unfold VRLoopNormal
  rw [heq]
  refine ⟨rfl, ?_, ?_, ?_⟩
  · show iterations submitCycle (pre ++ [d]) = _
    rw [iterations_calls]
    rfl
  · simpa using compositorCalls_iterations_cycles (pre ++ [d])
  · show (iterations submitCycle (pre ++ [d])).count Call.AcknowledgeQuit_Exiting = 1
    rw [iterations_append, List.count_append,
      count_ack_iterations_of_not_mem submitCycle pre count_ack_submitCycle hpre]
    simp only [iterations, List.map_cons, List.map_nil, List.flatten_cons, List.flatten_nil,
      List.append_nil, List.count_append, pollEvents_count_ack, hd1, count_ack_submitCycle]

/-- The scenario of C1: nothing pending at the first drain, Quit at the second
gives two submit cycles and one acknowledge call, and the loop returns. -/
theorem VRLoopNormal_cycles_of_quit_drain_witness :
    (VRLoopNormal ([[]] ++ [EVREventType.VREvent_Quit] :: [])).returned = true
    ∧ (VRLoopNormal ([[]] ++ [EVREventType.VREvent_Quit] :: [])).trace
        = [Call.PollNextEvent none, Call.Submit EVREye.Eye_Left,
           Call.Submit EVREye.Eye_Right, Call.WaitGetPoses,
           Call.PollNextEvent (some EVREventType.VREvent_Quit), Call.AcknowledgeQuit_Exiting,
           Call.PollNextEvent none, Call.Submit EVREye.Eye_Left,
           Call.Submit EVREye.Eye_Right, Call.WaitGetPoses]
    ∧ compositorCalls (VRLoopNormal ([[]] ++ [EVREventType.VREvent_Quit] :: [])).trace
        = [Call.Submit EVREye.Eye_Left, Call.Submit EVREye.Eye_Right, Call.WaitGetPoses,
           Call.Submit EVREye.Eye_Left, Call.Submit EVREye.Eye_Right, Call.WaitGetPoses]
    ∧ (VRLoopNormal ([[]] ++ [EVREventType.VREvent_Quit] :: [])).trace.count
        Call.AcknowledgeQuit_Exiting = 1 :=
  VRLoopNormal_cycles_of_quit_drain [[]] [EVREventType.VREvent_Quit] [] (by decide) (by decide)

/-- C3: if the first Quit event of the feed lies in its `n`-th drain `d`
(`n = pre.length + 1`), the Normal loop returns and its trace is exactly `n`
iterations. Each of the first `n - 1` is: one poll per pending event, the poll
that finds nothing, `Submit` left, `Submit` right, `WaitGetPoses`. The last is:
one poll per event pending in `d`, every one of them, with the acknowledge
call after a poll of Quit, the poll that finds nothing, then `Submit` left,
`Submit` right, `WaitGetPoses`, and nothing after. The compositor calls are
`n` times `Submit` left, `Submit` right, `WaitGetPoses`, whatever the events
are. -/
theorem VRLoopNormal_trace_of_first_quit (pre : List (List EVREventType))
    (d : List EVREventType) (rest : List (List EVREventType))
    (hpre : ∀ x ∈ pre, EVREventType.VREvent_Quit ∉ x)
    (hd : EVREventType.VREvent_Quit ∈ d) :
    VRLoopNormal (pre ++ d :: rest)
      = ⟨(pre.map (fun x =>
            x.map (fun e => Call.PollNextEvent (some e))
              ++ [Call.PollNextEvent none, Call.Submit EVREye.Eye_Left, Call.Submit EVREye.Eye_Right,
          Call.WaitGetPoses])).flatten
          ++ ((d.map (fun e => if e = EVREventType.VREvent_Quit then
          [Call.PollNextEvent (some e), Call.AcknowledgeQuit_Exiting]
        else [Call.PollNextEvent (some e)])).flatten
              ++ [Call.PollNextEvent none, Call.Submit EVREye.Eye_Left, Call.Submit EVREye.Eye_Right,
          Call.WaitGetPoses]), true⟩
    ∧ compositorCalls (VRLoopNormal (pre ++ d :: rest)).trace
      = (List.replicate (pre.length + 1) [Call.Submit EVREye.Eye_Left, Call.Submit EVREye.Eye_Right, Call.WaitGetPoses]).flatten := by
  have heq := VRLoopNormal_loop_eq pre d rest hpre hd
  unfold VRLoopNormal
  rw [heq]
  refine ⟨?_, ?_⟩
  · rw [iterations_append, iterations_calls_quiet submitCycle pre hpre, iterations_calls]
    simp [submitCycle]
  · simpa using compositorCalls_iterations_cycles (pre ++ [d])

/-- Instance of C3: two drains without Quit, then a drain with an event and
Quit; three iterations, written out. -/
theorem VRLoopNormal_trace_of_first_quit_witness :
    VRLoopNormal ([[], [EVREventType.VREvent_Other 7]]
        ++ [EVREventType.VREvent_Other 3, EVREventType.VREvent_Quit] :: [[]])
      = ⟨[Call.PollNextEvent none, Call.Submit EVREye.Eye_Left,
          Call.Submit EVREye.Eye_Right, Call.WaitGetPoses,
          Call.PollNextEvent (some (EVREventType.VREvent_Other 7)),
          Call.PollNextEvent none, Call.Submit EVREye.Eye_Left,
          Call.Submit EVREye.Eye_Right, Call.WaitGetPoses,
          Call.PollNextEvent (some (EVREventType.VREvent_Other 3)),
          Call.PollNextEvent (some EVREventType.VREvent_Quit),
          Call.AcknowledgeQuit_Exiting,
          Call.PollNextEvent none, Call.Submit EVREye.Eye_Left,
          Call.Submit EVREye.Eye_Right, Call.WaitGetPoses], true⟩
    ∧ compositorCalls (VRLoopNormal ([[], [EVREventType.VREvent_Other 7]]
        ++ [EVREventType.VREvent_Other 3, EVREventType.VREvent_Quit] :: [[]])).trace
      = [Call.Submit EVREye.Eye_Left, Call.Submit EVREye.Eye_Right, Call.WaitGetPoses,
         Call.Submit EVREye.Eye_Left, Call.Submit EVREye.Eye_Right, Call.WaitGetPoses,
         Call.Submit EVREye.Eye_Left, Call.Submit EVREye.Eye_Right, Call.WaitGetPoses] :=
  VRLoopNormal_trace_of_first_quit [[], [EVREventType.VREvent_Other 7]]
    [EVREventType.VREvent_Other 3, EVREventType.VREvent_Quit] [[]] (by decide) (by decide)

/-- C4, as stated, fails: two Quit events pending in the same drain are both
acknowledged, by the Normal loop and by the control loop. -/
theorem acknowledge_not_once_per_run :
    ¬ ∀ (feed : List (List EVREventType)),
        EVREventType.VREvent_Quit ∈ feed.flatten →
        (VRLoopNormal feed).trace.count Call.AcknowledgeQuit_Exiting = 1
        ∧ (EntryThreadEventLoop false feed).trace.count Call.AcknowledgeQuit_Exiting = 1 := by
  intro h
  have h1 := h [[EVREventType.VREvent_Quit, EVREventType.VREvent_Quit]] (by decide)
  revert h1
  decide

/-- C4, amended: let the first Quit event of the feed be the one after the
events `d1` of its drain, `d2` being the events pending behind it in the same
drain. Both loops return. In both, every call before the poll that returns
that Quit event is a poll of another event, a poll that finds nothing, a
compositor call or a sleep (or the first toggle): no acknowledge call.
`AcknowledgeQuit_Exiting` is the call right after that poll. The drain then
goes on through `d2`, with one more acknowledge call right after each poll of
a further Quit event, and the iteration is finished; later drains are never
polled. So the acknowledge calls of the run number one plus the Quit events
of `d2`: exactly one when no further Quit event is pending in that drain. -/
theorem acknowledge_at_first_quit (pre : List (List EVREventType))
    (d1 d2 : List EVREventType) (rest : List (List EVREventType))
    (hpre : ∀ x ∈ pre, EVREventType.VREvent_Quit ∉ x)
    (hd1 : EVREventType.VREvent_Quit ∉ d1) :
    VRLoopNormal (pre ++ (d1 ++ EVREventType.VREvent_Quit :: d2) :: rest)
      = ⟨(pre.map (fun x =>
            x.map (fun e => Call.PollNextEvent (some e))
              ++ [Call.PollNextEvent none, Call.Submit EVREye.Eye_Left, Call.Submit EVREye.Eye_Right,
          Call.WaitGetPoses])).flatten
          ++ (d1.map (fun e => Call.PollNextEvent (some e))
            ++ Call.PollNextEvent (some EVREventType.VREvent_Quit)
              :: Call.AcknowledgeQuit_Exiting
              :: ((d2.map (fun e => if e = EVREventType.VREvent_Quit then
          [Call.PollNextEvent (some e), Call.AcknowledgeQuit_Exiting]
        else [Call.PollNextEvent (some e)])).flatten
                ++ [Call.PollNextEvent none, Call.Submit EVREye.Eye_Left, Call.Submit EVREye.Eye_Right,
          Call.WaitGetPoses])), true⟩
    ∧ (VRLoopNormal (pre ++ (d1 ++ EVREventType.VREvent_Quit :: d2) :: rest)).trace.count
        Call.AcknowledgeQuit_Exiting = d2.count EVREventType.VREvent_Quit + 1
    ∧ EntryThreadEventLoop false (pre ++ (d1 ++ EVREventType.VREvent_Quit :: d2) :: rest)
      = ⟨Call.ShellExecuteA k_LatencyTestingTogglePath
          :: ((pre.map (fun x =>
              x.map (fun e => Call.PollNextEvent (some e))
                ++ [Call.PollNextEvent none, Call.sleep_for 1])).flatten
            ++ (d1.map (fun e => Call.PollNextEvent (some e))
              ++ Call.PollNextEvent (some EVREventType.VREvent_Quit)
                :: Call.AcknowledgeQuit_Exiting
                :: ((d2.map (fun e => if e = EVREventType.VREvent_Quit then
          [Call.PollNextEvent (some e), Call.AcknowledgeQuit_Exiting]
        else [Call.PollNextEvent (some e)])).flatten
                  ++ [Call.PollNextEvent none, Call.sleep_for 1,
                      Call.ShellExecuteA k_LatencyTestingTogglePath]))), true, true⟩
    ∧ (EntryThreadEventLoop false
        (pre ++ (d1 ++ EVREventType.VREvent_Quit :: d2) :: rest)).trace.count
        Call.AcknowledgeQuit_Exiting = d2.count EVREventType.VREvent_Quit + 1 := by
  have hd : EVREventType.VREvent_Quit ∈ d1 ++ EVREventType.VREvent_Quit :: d2 := by simp
  have hcount : (d1 ++ EVREventType.VREvent_Quit :: d2).count EVREventType.VREvent_Quit
      = d2.count EVREventType.VREvent_Quit + 1 := by
    rw [List.count_append, List.count_eq_zero_of_not_mem hd1]
    simp
  have h1 := VRLoopNormal_loop_eq pre _ rest hpre hd
  have h2 := EntryThreadEventLoop_loop_eq pre _ rest hpre hd
  unfold VRLoopNormal EntryThreadEventLoop
  rw [h1, h2]
  refine ⟨?_, ?_, ?_, ?_⟩
  · rw [iterations_append, iterations_calls_quiet submitCycle pre hpre, iterations_calls]
    simp only [List.map_cons, List.map_nil, List.flatten_cons, List.flatten_nil,
      List.append_nil, drain_calls_split d1 d2 hd1]
    simp [submitCycle]
  · show (iterations submitCycle (pre ++ [d1 ++ EVREventType.VREvent_Quit :: d2])).count
        Call.AcknowledgeQuit_Exiting = _
    rw [iterations_append, List.count_append,
      count_ack_iterations_of_not_mem submitCycle pre count_ack_submitCycle hpre]
    simp only [iterations, List.map_cons, List.map_nil, List.flatten_cons, List.flatten_nil,
      List.append_nil, List.count_append, pollEvents_count_ack, count_ack_submitCycle, hcount]
    omega
  · rw [iterations_append, iterations_calls_quiet [Call.sleep_for 1] pre hpre, iterations_calls]
    simp only [List.map_cons, List.map_nil, List.flatten_cons, List.flatten_nil,
      List.append_nil, drain_calls_split d1 d2 hd1]
    simp
  · show (Call.ShellExecuteA k_LatencyTestingTogglePath ::
        (iterations [Call.sleep_for 1] (pre ++ [d1 ++ EVREventType.VREvent_Quit :: d2])
          ++ [Call.ShellExecuteA k_LatencyTestingTogglePath])).count
        Call.AcknowledgeQuit_Exiting = _
    rw [List.count_cons, List.count_append, iterations_append, List.count_append,
      count_ack_iterations_of_not_mem [Call.sleep_for 1] pre (by decide) hpre]
    simp only [iterations, List.map_cons, List.map_nil, List.flatten_cons, List.flatten_nil,
      List.append_nil, List.count_append, pollEvents_count_ack, hcount]
    simp

/-- Instance of C4 (amended): a drain with another event, then a drain where
an event, Quit, an event and Quit again are pending, then a drain with Quit
that is never polled. -/
theorem acknowledge_at_first_quit_witness :
    VRLoopNormal ([[EVREventType.VREvent_Other 1]]
        ++ ([EVREventType.VREvent_Other 2] ++ EVREventType.VREvent_Quit
            :: [EVREventType.VREvent_Other 3, EVREventType.VREvent_Quit])
        :: [[EVREventType.VREvent_Quit]])
      = ⟨[Call.PollNextEvent (some (EVREventType.VREvent_Other 1)),
          Call.PollNextEvent none, Call.Submit EVREye.Eye_Left,
          Call.Submit EVREye.Eye_Right, Call.WaitGetPoses,
          Call.PollNextEvent (some (EVREventType.VREvent_Other 2)),
          Call.PollNextEvent (some EVREventType.VREvent_Quit),
          Call.AcknowledgeQuit_Exiting,
          Call.PollNextEvent (some (EVREventType.VREvent_Other 3)),
          Call.PollNextEvent (some EVREventType.VREvent_Quit),
          Call.AcknowledgeQuit_Exiting,
          Call.PollNextEvent none, Call.Submit EVREye.Eye_Left,
          Call.Submit EVREye.Eye_Right, Call.WaitGetPoses], true⟩
    ∧ (VRLoopNormal ([[EVREventType.VREvent_Other 1]]
        ++ ([EVREventType.VREvent_Other 2] ++ EVREventType.VREvent_Quit
            :: [EVREventType.VREvent_Other 3, EVREventType.VREvent_Quit])
        :: [[EVREventType.VREvent_Quit]])).trace.count Call.AcknowledgeQuit_Exiting = 2
    ∧ EntryThreadEventLoop false ([[EVREventType.VREvent_Other 1]]
        ++ ([EVREventType.VREvent_Other 2] ++ EVREventType.VREvent_Quit
            :: [EVREventType.VREvent_Other 3, EVREventType.VREvent_Quit])
        :: [[EVREventType.VREvent_Quit]])
      = ⟨[Call.ShellExecuteA k_LatencyTestingTogglePath,
          Call.PollNextEvent (some (EVREventType.VREvent_Other 1)),
          Call.PollNextEvent none, Call.sleep_for 1,
          Call.PollNextEvent (some (EVREventType.VREvent_Other 2)),
          Call.PollNextEvent (some EVREventType.VREvent_Quit),
          Call.AcknowledgeQuit_Exiting,
          Call.PollNextEvent (some (EVREventType.VREvent_Other 3)),
          Call.PollNextEvent (some EVREventType.VREvent_Quit),
          Call.AcknowledgeQuit_Exiting,
          Call.PollNextEvent none, Call.sleep_for 1,
          Call.ShellExecuteA k_LatencyTestingTogglePath], true, true⟩
    ∧ (EntryThreadEventLoop false ([[EVREventType.VREvent_Other 1]]
        ++ ([EVREventType.VREvent_Other 2] ++ EVREventType.VREvent_Quit
            :: [EVREventType.VREvent_Other 3, EVREventType.VREvent_Quit])
        :: [[EVREventType.VREvent_Quit]])).trace.count Call.AcknowledgeQuit_Exiting = 2 :=
  acknowledge_at_first_quit [[EVREventType.VREvent_Other 1]] [EVREventType.VREvent_Other 2]
    [EVREventType.VREvent_Other 3, EVREventType.VREvent_Quit] [[EVREventType.VREvent_Quit]]
    (by decide) (by decide)

/-! ## The Split loop, thread by thread -/

/-- C5: when the render thread reads `g_DoQuit` false `m` times and then true,
its loop makes exactly `m` times the calls `Submit` left, `Submit` right,
`WaitGetPoses`, in that order, and stops at the read of true with no call
after it (no call at all when `m = 0`); `VRLoopSplit` then only joins.
Whatever it reads, the render thread never calls `PollNextEvent` or
`AcknowledgeQuit_Exiting`. -/
theorem VRLoopSplit_cycles (m : Nat) (rest reads : List Bool)
    (feed : List (List EVREventType)) :
    VRLoopSplit.loop (List.replicate m false ++ true :: rest)
      = ⟨(List.replicate m [Call.Submit EVREye.Eye_Left, Call.Submit EVREye.Eye_Right, Call.WaitGetPoses]).flatten, true⟩
    ∧ (VRLoopSplit (List.replicate m false ++ true :: rest) feed).trace
        = Call.thread_start
          :: (List.replicate m [Call.Submit EVREye.Eye_Left, Call.Submit EVREye.Eye_Right, Call.WaitGetPoses]).flatten
          ++ [Call.thread_join]
    ∧ VRLoopSplit.loop (true :: rest) = ⟨[], true⟩
    ∧ (VRLoopSplit (true :: rest) feed).trace = [Call.thread_start, Call.thread_join]
    ∧ (VRLoopSplit reads feed).trace.filter isEventCall = []
    ∧ Call.AcknowledgeQuit_Exiting ∉ (VRLoopSplit reads feed).trace
    ∧ ∀ r, Call.PollNextEvent r ∉ (VRLoopSplit reads feed).trace := by
  have heq : VRLoopSplit.loop (List.replicate m false ++ true :: rest)
      = ⟨(List.replicate m [Call.Submit EVREye.Eye_Left, Call.Submit EVREye.Eye_Right, Call.WaitGetPoses]).flatten, true⟩ :=
    VRLoopSplit_loop_eq m rest
  have hfilter : (VRLoopSplit reads feed).trace.filter isEventCall = [] := by
    unfold VRLoopSplit
    have hf := filter_isEventCall_VRLoopSplit_loop reads
    by_cases hr : (VRLoopSplit.loop reads).returned = true
    · simp [hr, List.filter_cons, List.filter_append, hf, isEventCall]
    · simp [hr, List.filter_cons, hf, isEventCall]
  have hnot : ∀ c, isEventCall c = true → c ∉ (VRLoopSplit reads feed).trace := by
    intro c hc hm
    have : c ∈ (VRLoopSplit reads feed).trace.filter isEventCall :=
      List.mem_filter.mpr ⟨hm, hc⟩
    rw [hfilter] at this
    simp at this
  refine ⟨heq, ?_, rfl, rfl, hfilter, hnot _ rfl, fun r => hnot _ rfl⟩
  unfold VRLoopSplit
  rw [heq]
  simp

/-! ## Command line -/

theorem getline_extract_measure (delim : Char) (buf : List Char) :
    (if (getline.extract delim buf).2.2.1 then 0
      else (getline.extract delim buf).2.1.length + 1) ≤ buf.length := by
  induction buf with
  | nil => simp [getline.extract]
  | cons c cs ih =>
    by_cases hc : c = delim
    · simp [getline.extract, hc]
    · simp only [getline.extract, hc, if_false, List.length_cons]
      omega

theorem getline_measure_lt (ss : stringstream) (str : List Char) (delim : Char)
    (h : (getline ss str delim).1.failbit = false) :
    (getline ss str delim).1.measure < ss.measure := by
  by_cases hg : (ss.eofbit || ss.failbit) = true
  · simp [getline, hg] at h
  · have hm := getline_extract_measure delim ss.buf
    simp only [getline, hg, if_false, Bool.false_eq_true] at h ⊢
    simp only [stringstream.measure, hg, if_false, Bool.false_eq_true]
    split
    · omega
    · split at hm
      · simp_all
      · omega

theorem getline_measure_le (ss : stringstream) (str : List Char) (delim : Char) :
    (getline ss str delim).1.measure ≤ ss.measure := by
  by_cases h : (getline ss str delim).1.failbit = false
  · exact Nat.le_of_lt (getline_measure_lt ss str delim h)
  · have : (getline ss str delim).1.failbit = true := by simpa using h
    simp [stringstream.measure, this]

theorem ParseCommandLine_loop_isSome (fuel : Nat) (ss : stringstream) (arg : List Char)
    (h : ss.measure < fuel) : (ParseCommandLine.loop fuel ss arg).isSome = true := by
  induction fuel generalizing ss arg with
  | zero => omega
  | succ fuel ih =>
    rw [ParseCommandLine.loop]
    by_cases hf : (getline ss arg ' ').1.failbit = true
    · simp [hf]
    · have hf2 : (getline ss arg ' ').1.failbit = false := by simpa using hf
      have h1 := getline_measure_lt ss arg ' ' hf2
      have h2 := getline_measure_le (getline ss arg ' ').1 (getline ss arg ' ').2 ' '
      simp only [hf2, Bool.false_eq_true, if_false]
      split
      · split
        · rfl
        · simpa using ih _ _ (by omega)
      · split
        · split
          · rfl
          · simpa using ih _ _ (by omega)
        · exact ih _ _ (by omega)

/-- `ParseCommandLine` returns on every command line. -/
theorem ParseCommandLine_isSome (cmdline : List Char) :
    (ParseCommandLine cmdline).isSome = true := by
  apply ParseCommandLine_loop_isSome
  simp [stringstream.measure]

theorem ParseCommandLine_loop_writes (fuel : Nat) (ss : stringstream) (arg : List Char)
    (t : List Call) (h : ParseCommandLine.loop fuel ss arg = some t) :
    ∀ c ∈ t, isSettingsWrite c = true := by
  induction fuel generalizing ss arg t with
  | zero => simp [ParseCommandLine.loop] at h
  | succ fuel ih =>
    rw [ParseCommandLine.loop] at h
    simp only at h
    split at h
    · simp at h; subst h; simp
    · split at h
      · split at h
        · simp at h; subst h; simp
        · obtain ⟨t1, ht1, rfl⟩ := Option.map_eq_some'.mp h
          intro c hc
          rcases List.mem_cons.mp hc with rfl | hc
          · rfl
          · exact ih _ _ _ ht1 c hc
      · split at h
        · split at h
          · simp at h; subst h; simp
          · obtain ⟨t1, ht1, rfl⟩ := Option.map_eq_some'.mp h
            intro c hc
            rcases List.mem_cons.mp hc with rfl | hc
            · rfl
            · exact ih _ _ _ ht1 c hc
        · exact ih _ _ _ h

/-- C10: the claim is right and the code misses it when nothing follows the
switch. On the command line `--set-background-color` the second `getline`
fails on the stream at its end and leaves `arg` holding the switch, which is
not empty, so `SetString` is called with the switch as value; on
`--set-use-debug-command` `SetBool` is called with `false`. With a trailing
space the second `getline` reads an empty string and nothing is written. -/
theorem ParseCommandLine_switch_without_value :
    ParseCommandLine "--set-background-color".toList
      = some [Call.SetString k_AppKey k_SettingsKeyBackgroundColor
          "--set-background-color".toList]
    ∧ ParseCommandLine "--set-use-debug-command".toList
      = some [Call.SetBool k_AppKey k_SettingsKeyUseDebugCommand false]
    ∧ ParseCommandLine "--set-background-color ".toList = some []
    ∧ ParseCommandLine "--set-use-debug-command ".toList = some [] := by
  decide

/-! ## Start-up and exit -/

theorem InitOpenVR_not_mem_shutdown (env : Env) : Call.VR_Shutdown ∉ (InitOpenVR env).1 := by
  unfold InitOpenVR
  split
  · simp
  · split <;> simp [List.mem_replicate]

theorem LoadSettings_not_mem_shutdown (env : Env) : Call.VR_Shutdown ∉ (LoadSettings env).1 := by
  unfold LoadSettings
  simp only [List.mem_append, not_or]
  refine ⟨⟨⟨by simp, ?_⟩, by simp⟩, ?_⟩
  · split <;> simp
  · split <;> simp

theorem ParseCommandLine_not_mem_shutdown (cmdline : List Char) (t : List Call)
    (h : ParseCommandLine cmdline = some t) : Call.VR_Shutdown ∉ t := by
  intro hm
  have := ParseCommandLine_loop_writes _ _ _ t h _ hm
  simp [isSettingsWrite] at this

/-- C6: the claim is right on the exit code and the code misses the shutdown.
Whatever else the libraries answer, when `VR_Init` succeeds and
`CreateDeviceD3D` fails, `WinMain` returns -2 from line 73 and its trace holds
no `VR_Shutdown` call. -/
theorem WinMain_device_failure_skips_shutdown (env : Env) :
    (WinMain { env with vr_init_error := EVRInitError.VRInitError_None
                        create_device_ok := false }).exit_code = some (-2)
    ∧ Call.VR_Shutdown ∉
      (WinMain { env with vr_init_error := EVRInitError.VRInitError_None
                          create_device_ok := false }).trace := by
  obtain ⟨p, hp⟩ := Option.isSome_iff_exists.mp (ParseCommandLine_isSome env.cmdline)
  have h1 := InitOpenVR_not_mem_shutdown
    { env with vr_init_error := EVRInitError.VRInitError_None, create_device_ok := false }
  have h2 := LoadSettings_not_mem_shutdown
    { env with vr_init_error := EVRInitError.VRInitError_None, create_device_ok := false }
  have h3 := ParseCommandLine_not_mem_shutdown env.cmdline p hp
  have hi : (InitOpenVR { env with vr_init_error := EVRInitError.VRInitError_None
                                   create_device_ok := false }).2
      = EVRInitError.VRInitError_None := by
    simp [InitOpenVR]
  unfold WinMain
  simp only [hi, hp, ne_eq, not_true_eq_false, if_false, Bool.not_false, if_true]
  refine ⟨trivial, ?_⟩
  simp only [List.mem_append, not_or]
  exact ⟨⟨⟨⟨h1, h3⟩, h2⟩, by simp⟩, by simp⟩

/-- C7: the exit code of `WinMain`. Canceled init: 0, and `VR_Init` is the only
call made. Any other init error: -1. Init fine and no graphics device: -2,
whatever the texture creation would give. Device fine and no texture: -3. All
three fine and the loop chosen by the setting returns: 0. And 0 is returned in
no other case. -/
theorem WinMain_exit_code (env : Env) :
    (env.vr_init_error = EVRInitError.VRInitError_Init_InitCanceledByUser →
      WinMain env = ⟨[Call.VR_Init], [], some 0⟩)
    ∧ (env.vr_init_error ≠ EVRInitError.VRInitError_None →
       env.vr_init_error ≠ EVRInitError.VRInitError_Init_InitCanceledByUser →
      (WinMain env).exit_code = some (-1))
    ∧ (env.vr_init_error = EVRInitError.VRInitError_None → env.create_device_ok = false →
      (WinMain env).exit_code = some (-2))
    ∧ (env.vr_init_error = EVRInitError.VRInitError_None → env.create_device_ok = true →
       env.create_texture_ok = false →
      (WinMain env).exit_code = some (-3))
    ∧ (env.vr_init_error = EVRInitError.VRInitError_None → env.create_device_ok = true →
       env.create_texture_ok = true →
       (if env.get_bool_value then (VRLoopSplit env.quit_reads env.feed).returned
         else (VRLoopNormal env.feed).returned) = true →
      (WinMain env).exit_code = some 0)
    ∧ ((WinMain env).exit_code = some 0 →
        env.vr_init_error = EVRInitError.VRInitError_Init_InitCanceledByUser
        ∨ (env.vr_init_error = EVRInitError.VRInitError_None ∧ env.create_device_ok = true
            ∧ env.create_texture_ok = true
            ∧ (if env.get_bool_value then (VRLoopSplit env.quit_reads env.feed).returned
                else (VRLoopNormal env.feed).returned) = true)) := by
  obtain ⟨p, hp⟩ := Option.isSome_iff_exists.mp (ParseCommandLine_isSome env.cmdline)
  refine ⟨?_, ?_, ?_, ?_, ?_, ?_⟩
  · intro h
    simp [WinMain, InitOpenVR, h]
  · intro h1 h2
    simp [WinMain, InitOpenVR, h1, h2]
  · intro h1 h2
    simp [WinMain, InitOpenVR, h1, h2, hp]
  · intro h1 h2 h3
    simp [WinMain, InitOpenVR, h1, h2, h3, hp]
  · intro h1 h2 h3 h4
    by_cases hb : env.get_bool_value = true
    · simp only [hb, if_true] at h4
      simp [WinMain, InitOpenVR, LoadSettings, h1, h2, h3, h4, hb, hp]
    · have hb2 : env.get_bool_value = false := by simpa using hb
      simp only [hb2, Bool.false_eq_true, if_false] at h4
      simp [WinMain, InitOpenVR, LoadSettings, h1, h2, h3, h4, hb2, hp]
  · intro h
    by_cases h0 : env.vr_init_error = EVRInitError.VRInitError_None
    · right
      cases h2 : env.create_device_ok with
      | false => simp [WinMain, InitOpenVR, h0, h2, hp] at h
      | true =>
        cases h3 : env.create_texture_ok with
        | false => simp [WinMain, InitOpenVR, h0, h2, h3, hp] at h
        | true =>
          refine ⟨h0, rfl, rfl, ?_⟩
          cases hb : env.get_bool_value with
          | false =>
            by_cases hr : (VRLoopNormal env.feed).returned = true
            · simpa using hr
            · simp [WinMain, InitOpenVR, LoadSettings, h0, h2, h3, hb, hp, hr] at h
          | true =>
            by_cases hr : (VRLoopSplit env.quit_reads env.feed).returned = true
            · simpa using hr
            · simp [WinMain, InitOpenVR, LoadSettings, h0, h2, h3, hb, hp, hr] at h
    · left
      by_cases h1 : env.vr_init_error = EVRInitError.VRInitError_Init_InitCanceledByUser
      · exact h1
      · simp [WinMain, InitOpenVR, h0, h1] at h

/-! ## The loops as a transition system -/

theorem stepMain_g_DoQuit (s s1 : State) (polled : Option EVREventType)
    (h : stepMain s polled = some s1) : s1.g_DoQuit = s.g_DoQuit := by
  unfold stepMain at h
  split at h <;> first
    | (simp only [Option.some.injEq] at h; subst h; rfl)
    | (split at h <;> first
        | (simp only [Option.some.injEq] at h; subst h; rfl)
        | simp at h)
    | simp at h

theorem stepControl_g_DoQuit (s s1 : State) (polled : Option EVREventType)
    (h : stepControl s polled = some s1) (hg : s.g_DoQuit = true) : s1.g_DoQuit = true := by
  unfold stepControl at h
  split at h <;> first
    | (simp only [Option.some.injEq] at h; subst h; first | rfl | exact hg)
    | simp at h

/-- No move takes `g_DoQuit` from true to false. -/
theorem step_g_DoQuit (s s1 : State) (m : Move) (h : step s m = some s1)
    (hg : s.g_DoQuit = true) : s1.g_DoQuit = true := by
  cases m with
  | main polled => rw [stepMain_g_DoQuit s s1 polled h]; exact hg
  | control polled => exact stepControl_g_DoQuit s s1 polled h hg

theorem states_g_DoQuit_true (s : State) (ms : List Move) (hg : s.g_DoQuit = true) :
    (states s ms).map State.g_DoQuit = List.replicate (states s ms).length true := by
  induction ms generalizing s with
  | nil => simp [states, hg]
  | cons m ms ih =>
    rw [states]
    cases hs : step s m with
    | none => simp [hg]
    | some s1 =>
      simp only [List.map_cons, List.length_cons, List.replicate_succ, hg,
        ih s1 (step_g_DoQuit s s1 m hs hg)]

theorem states_g_DoQuit_shape (s : State) (ms : List Move) :
    ∃ a c, (states s ms).map State.g_DoQuit = List.replicate a false ++ List.replicate c true
      ∧ (s.g_DoQuit = false → 0 < a) := by
  induction ms generalizing s with
  | nil =>
    cases hg : s.g_DoQuit with
    | false => exact ⟨1, 0, by simp [states, hg], by simp⟩
    | true => exact ⟨0, 1, by simp [states, hg], by simp⟩
  | cons m ms ih =>
    cases hg : s.g_DoQuit with
    | true =>
      exact ⟨0, (states s (m :: ms)).length, by simpa using states_g_DoQuit_true s (m :: ms) hg,
        by simp⟩
    | false =>
      rw [states]
      cases hs : step s m with
      | none => exact ⟨1, 0, by simp [hg], by simp⟩
      | some s1 =>
        obtain ⟨a, c, h1, _⟩ := ih s1
        exact ⟨a + 1, c, by simp [hg, h1, List.replicate_succ], by simp⟩

/-- C8: along every schedule of moves of the main thread and of the control
thread, in Normal mode and in Split mode, the values `g_DoQuit` takes are
false one or more times and then true from some move on: it starts false,
changes at most once, and only from false to true. -/
theorem g_DoQuit_changes_once (use_debug_command : Bool) (ms : List Move) :
    ∃ a c, (states (init use_debug_command) ms).map State.g_DoQuit
      = List.replicate (a + 1) false ++ List.replicate c true := by
  obtain ⟨a, c, h, ha⟩ := states_g_DoQuit_shape (init use_debug_command) ms
  have hpos : 0 < a := ha rfl
  obtain ⟨b, rfl⟩ : ∃ b, a = b + 1 := ⟨a - 1, by omega⟩
  exact ⟨b, c, h⟩

theorem toggleCount_snoc (tr : List Call) (x : Call) :
    toggleCount (tr ++ [x])
      = toggleCount tr + (if x = Call.ShellExecuteA k_LatencyTestingTogglePath then 1 else 0) := by
  unfold toggleCount
  rw [List.count_append]
  by_cases hx : x = Call.ShellExecuteA k_LatencyTestingTogglePath
  · simp [hx]
  · have : ¬ (Call.ShellExecuteA k_LatencyTestingTogglePath = x) := fun h => hx h.symm
    simp [hx, List.count_cons, this]

theorem joinedAfterToggles_snoc (tr : List Call) (x : Call) (h : joinedAfterToggles tr)
    (hx : x = Call.thread_join ∨ x = Call.VR_Shutdown → toggleCount tr = 2) :
    joinedAfterToggles (tr ++ [x]) := by
  intro pre c post heq hc
  rcases List.eq_nil_or_concat post with rfl | ⟨post1, y, rfl⟩
  · have h2 : tr ++ [x] = pre ++ [c] := heq
    obtain ⟨h3, h4⟩ := List.append_inj' h2 rfl
    subst h3
    simp only [List.cons.injEq, and_true] at h4
    subst h4
    exact hx hc
  · have h2 : tr ++ [x] = (pre ++ c :: post1) ++ [y] := by
      rw [heq]; simp
    obtain ⟨h3, _⟩ := List.append_inj' h2 rfl
    exact h pre c post1 h3 hc

theorem SplitInv_init : SplitInv (init true) where
  points := Or.inl rfl
  start := fun _ => rfl
  toggles := rfl
  finished := fun h => by simp [init, MainPoint.afterLoop] at h
  joined := by
    intro pre c post h
    simp [init] at h

theorem SplitInv_stepMain (s s1 : State) (polled : Option EVREventType) (hi : SplitInv s)
    (h : stepMain s polled = some s1) : SplitInv s1 := by
  obtain ⟨hp, hst, ht, hf, hj⟩ := hi
  unfold stepMain at h
  split at h
  case h_8 hm =>
    simp only [Option.some.injEq] at h; subst h
    have hc := hst hm
    refine ⟨Or.inl rfl, fun h => by simp at h, ?_, fun h => by simp [MainPoint.afterLoop] at h,
      joinedAfterToggles_snoc _ _ hj (by simp)⟩
    simp only [toggleCount_snoc, ht, hc]
    rfl
  case h_9 hm =>
    simp only [Option.some.injEq] at h; subst h
    refine ⟨Or.inl (by dsimp only; split <;> rfl), fun h => by
      dsimp only at h; split at h <;> simp at h, ht, fun h => by
      dsimp only at h; split at h <;> simp [MainPoint.afterLoop] at h, hj⟩
  case h_10 hm =>
    simp only [Option.some.injEq] at h; subst h
    exact ⟨Or.inl rfl, fun h => by simp at h, by simpa [toggleCount_snoc] using ht,
      fun h => by simp [MainPoint.afterLoop] at h, joinedAfterToggles_snoc _ _ hj (by simp)⟩
  case h_11 hm =>
    simp only [Option.some.injEq] at h; subst h
    exact ⟨Or.inl rfl, fun h => by simp at h, by simpa [toggleCount_snoc] using ht,
      fun h => by simp [MainPoint.afterLoop] at h, joinedAfterToggles_snoc _ _ hj (by simp)⟩
  case h_12 hm =>
    simp only [Option.some.injEq] at h; subst h
    exact ⟨Or.inl rfl, fun h => by simp at h, by simpa [toggleCount_snoc] using ht,
      fun h => by simp [MainPoint.afterLoop] at h, joinedAfterToggles_snoc _ _ hj (by simp)⟩
  case h_13 hm =>
    split at h
    · rename_i hfin
      simp only [Option.some.injEq] at h; subst h
      have h2 : toggleCount s.trace = 2 := by rw [ht, hfin]; rfl
      exact ⟨Or.inr rfl, fun h => by simp at h, by simpa [toggleCount_snoc] using ht,
        fun _ => hfin, joinedAfterToggles_snoc _ _ hj (fun _ => h2)⟩
    · simp at h
  case h_14 hm =>
    simp only [Option.some.injEq] at h; subst h
    have hfin := hf (by rw [hm]; rfl)
    have h2 : toggleCount s.trace = 2 := by rw [ht, hfin]; rfl
    exact ⟨Or.inr rfl, fun h => by simp at h, by simpa [toggleCount_snoc] using ht,
      fun _ => hfin, joinedAfterToggles_snoc _ _ hj (fun _ => h2)⟩
  case h_15 hm => simp at h
  all_goals
    rename_i hm
    rw [hm] at hp
    simp [MainPoint.inSplit, MainPoint.afterLoop] at hp

theorem SplitInv_stepControl (s s1 : State) (polled : Option EVREventType) (hi : SplitInv s)
    (h : stepControl s polled = some s1) : SplitInv s1 := by
  obtain ⟨hp, hst, ht, hf, hj⟩ := hi
  have hns : s.control ≠ ControlPoint.not_started := by
    intro hc
    simp [stepControl, hc] at h
  have hnf : s.control ≠ ControlPoint.finished := by
    intro hc
    simp [stepControl, hc] at h
  have hst1 : s.main ≠ MainPoint.split_start := fun hm => hns (hst hm)
  have hf1 : ¬ s.main.afterLoop = true := fun hm => hnf (hf hm)
  unfold stepControl at h
  split at h
  case h_1 hc => exact absurd hc hns
  case h_9 hc => exact absurd hc hnf
  case h_3 hc =>
    simp only [Option.some.injEq] at h; subst h
    refine ⟨hp, fun hm => absurd hm hst1, ?_, fun hm => absurd hm hf1, hj⟩
    dsimp only
    rw [ht, hc]
    split <;> rfl
  case h_4 hc =>
    simp only [Option.some.injEq] at h; subst h
    refine ⟨hp, fun hm => absurd hm hst1, ?_, fun hm => absurd hm hf1,
      joinedAfterToggles_snoc _ _ hj (by simp)⟩
    dsimp only
    rw [toggleCount_snoc, ht, hc]
    cases polled with
    | none => rfl
    | some e => cases e <;> rfl
  case h_6 hc =>
    simp only [Option.some.injEq] at h; subst h
    refine ⟨hp, fun hm => absurd hm hst1, ?_, fun hm => absurd hm hf1, hj⟩
    dsimp only
    rw [ht, hc]
    rfl
  all_goals
    rename_i hc
    simp only [Option.some.injEq] at h; subst h
    refine ⟨hp, fun hm => absurd hm hst1, ?_, fun hm => absurd hm hf1,
      joinedAfterToggles_snoc _ _ hj (by simp)⟩
    dsimp only
    rw [toggleCount_snoc, ht, hc]
    rfl

theorem SplitInv_run (s s1 : State) (ms : List Move) (hi : SplitInv s)
    (h : run s ms = some s1) : SplitInv s1 := by
  induction ms generalizing s with
  | nil =>
    simp only [run, Option.some.injEq] at h
    subst h
    exact hi
  | cons m ms ih =>
    rw [run] at h
    cases hs : step s m with
    | none => simp [hs] at h
    | some s2 =>
      simp only [hs] at h
      refine ih s2 ?_ h
      cases m with
      | main polled => exact SplitInv_stepMain s s2 polled hi hs
      | control polled => exact SplitInv_stepControl s s2 polled hi hs

/-- C9: in Split mode, under every schedule of the two threads, once the main
thread is past `join` (at `VR_Shutdown` or after it) the control thread has
finished and the toggle command has been called twice; and in the trace every
`thread_join` and every `VR_Shutdown` has two toggle calls before it. -/
theorem VRLoopSplit_returns_after_untoggle (ms : List Move) (s : State)
    (h : run (init true) ms = some s) :
    (s.main.afterLoop = true → s.control = ControlPoint.finished ∧ toggleCount s.trace = 2)
    ∧ ∀ pre c post, s.trace = pre ++ c :: post →
        c = Call.thread_join ∨ c = Call.VR_Shutdown → toggleCount pre = 2 := by
  have hi := SplitInv_run (init true) s ms SplitInv_init h
  refine ⟨fun hm => ⟨hi.finished hm, ?_⟩, hi.joined⟩
  rw [hi.toggles, hi.finished hm]
  rfl

/-- Instance of C9: the full run `splitSchedule`. -/
theorem VRLoopSplit_returns_after_untoggle_witness :
    run (init true) splitSchedule = some splitFinal
    ∧ (splitFinal.main.afterLoop = true →
        splitFinal.control = ControlPoint.finished ∧ toggleCount splitFinal.trace = 2)
    ∧ ∀ pre c post, splitFinal.trace = pre ++ c :: post →
        c = Call.thread_join ∨ c = Call.VR_Shutdown → toggleCount pre = 2 :=
  ⟨by decide, VRLoopSplit_returns_after_untoggle splitSchedule splitFinal (by decide)⟩

/-- In the run `splitSchedule` the flag `g_DoQuit` does change: false for the
first six states, true from the store at line 344 on. -/
theorem g_DoQuit_history_splitSchedule :
    (states (init true) splitSchedule).map State.g_DoQuit
      = List.replicate 6 false ++ List.replicate 8 true := by
  decide

/-- Instances of C7 on `sampleEnv` and variants of it: canceled init, a failed
init, no device, no texture, and a loop that returns. -/
theorem WinMain_exit_code_witness :
    WinMain { sampleEnv with
        vr_init_error := EVRInitError.VRInitError_Init_InitCanceledByUser }
      = ⟨[Call.VR_Init], [], some 0⟩
    ∧ (WinMain { sampleEnv with
        vr_init_error := EVRInitError.VRInitError_Other 108 }).exit_code = some (-1)
    ∧ (WinMain { sampleEnv with create_device_ok := false }).exit_code = some (-2)
    ∧ (WinMain { sampleEnv with create_texture_ok := false }).exit_code = some (-3)
    ∧ (WinMain sampleEnv).exit_code = some 0 :=
  ⟨(WinMain_exit_code { sampleEnv with
      vr_init_error := EVRInitError.VRInitError_Init_InitCanceledByUser }).1 rfl,
   (WinMain_exit_code { sampleEnv with
      vr_init_error := EVRInitError.VRInitError_Other 108 }).2.1 (by decide) (by decide),
   (WinMain_exit_code { sampleEnv with create_device_ok := false }).2.2.1 rfl rfl,
   (WinMain_exit_code { sampleEnv with create_texture_ok := false }).2.2.2.1 rfl rfl rfl,
   (WinMain_exit_code sampleEnv).2.2.2.2.1 rfl rfl rfl (by decide)⟩

/-! ## The loop functions agree with the transition system -/

theorem run_main_poll (g q : Bool) (c : ControlPoint) (tr : List Call)
    (d : List EVREventType) (rest : List Move) :
    run ⟨g, q, MainPoint.normal_poll, c, tr⟩ (pollMoves Move.main d ++ rest)
      = run ⟨g, (pollEvents q d).2, MainPoint.normal_submit_left, c,
          tr ++ (pollEvents q d).1⟩ rest := by
  induction d generalizing q tr with
  | nil => simp [pollMoves, run, step, stepMain, afterPoll, pollEvents]
  | cons e es ih =>
    cases e with
    | VREvent_Quit =>
      simp only [pollMoves, List.cons_append, run, step, stepMain, afterPoll, pollEvents]
      simp only [List.append_eq]
      rw [ih]
      simp
    | VREvent_Other t =>
      simp only [pollMoves, List.cons_append, run, step, stepMain, afterPoll, pollEvents]
      simp only [List.append_eq]
      rw [ih]
      simp

theorem run_control_poll (g q : Bool) (m : MainPoint) (tr : List Call)
    (d : List EVREventType) (rest : List Move) :
    run ⟨g, q, m, ControlPoint.poll, tr⟩ (pollMoves Move.control d ++ rest)
      = run ⟨(pollEvents g d).2, q, m, ControlPoint.sleep, tr ++ (pollEvents g d).1⟩ rest := by
  induction d generalizing g tr with
  | nil => simp [pollMoves, run, step, stepControl, afterPoll, pollEvents]
  | cons e es ih =>
    cases e with
    | VREvent_Quit =>
      simp only [pollMoves, List.cons_append, run, step, stepControl, afterPoll, pollEvents]
      simp only [List.append_eq]
      rw [ih]
      simp
    | VREvent_Other t =>
      simp only [pollMoves, List.cons_append, run, step, stepControl, afterPoll, pollEvents]
      simp only [List.append_eq]
      rw [ih]
      simp

/-- The main thread, moved through the Normal loop on a feed, makes the calls
of `VRLoopNormal.loop` and stands at `VR_Shutdown` exactly when that function
returns; `g_DoQuit` is left as it was. -/
theorem run_normalMoves (g q : Bool) (c : ControlPoint) (tr : List Call)
    (feed : List (List EVREventType)) :
    run ⟨g, q, MainPoint.normal_while, c, tr⟩ (normalMoves q feed)
      = some ⟨g, (VRLoopNormal.loop q feed).returned,
          if (VRLoopNormal.loop q feed).returned then MainPoint.shutdown
          else MainPoint.normal_while,
          c, tr ++ (VRLoopNormal.loop q feed).trace⟩ := by
  induction feed generalizing q tr with
  | nil =>
    cases q with
    | true => simp [normalMoves, run, step, stepMain, VRLoopNormal.loop]
    | false => simp [normalMoves, run, VRLoopNormal.loop]
  | cons d feed ih =>
    cases q with
    | true => simp [normalMoves, run, step, stepMain, VRLoopNormal.loop]
    | false =>
      rw [normalMoves, VRLoopNormal.loop]
      simp only [run, step, stepMain, Bool.false_eq_true, if_false]
      rw [run_main_poll]
      simp only [run, step, stepMain]
      rw [ih]
      simp [submitCycle]

/-- The control thread, moved through its loop on a feed, makes the calls of
`EntryThreadEventLoop.loop`, leaves `g_DoQuit` as that function says, and is
finished exactly when that function returns. -/
theorem run_controlMoves (g q : Bool) (m : MainPoint) (tr : List Call)
    (feed : List (List EVREventType)) :
    run ⟨g, q, m, ControlPoint.loop_while, tr⟩ (controlMoves g feed)
      = some ⟨(EntryThreadEventLoop.loop g feed).g_DoQuit, q, m,
          if (EntryThreadEventLoop.loop g feed).returned then ControlPoint.finished
          else ControlPoint.loop_while,
          tr ++ (EntryThreadEventLoop.loop g feed).trace⟩ := by
  induction feed generalizing g tr with
  | nil =>
    cases g with
    | true => simp [controlMoves, run, step, stepControl, EntryThreadEventLoop.loop]
    | false => simp [controlMoves, run, EntryThreadEventLoop.loop]
  | cons d feed ih =>
    cases g with
    | true => simp [controlMoves, run, step, stepControl, EntryThreadEventLoop.loop]
    | false =>
      rw [controlMoves, EntryThreadEventLoop.loop]
      simp only [run, step, stepControl, Bool.false_eq_true, if_false]
      rw [run_control_poll]
      simp only [run, step, stepControl]
      rw [ih]
      simp

end VoidScene
